import Mathlib

/-
Verification of the result type-conversion subsystem of the Blender compositor
(source/blender/compositor/COM_conversion_operation.hh).

The repository fragment contains the interface header only; the method bodies
live in a translation unit that is not part of the fragment.  The data model
and the behavior of each method are therefore modelled from the specification,
which agrees with the documentation comments carried by the header itself.
Numeric element values are modelled as rationals, i.e. the ideal arithmetic
that the conversion rules denote.
-/

namespace Compositor

/-- Modelled from the spec: the closed enumeration of data kinds carried by a
Result.  `Scalar` is a single float, `Vector4` a 4-component vector, `Color4`
a 4-channel color. -/
inductive DataKind where
  | Scalar
  | Vector4
  | Color4
deriving DecidableEq, Repr

/-- Modelled from the spec: a pixel element.  Scalar results store one number;
vector and color results both store four components. -/
inductive PixelValue where
  | scalar (v : ℚ)
  | float4 (x y z w : ℚ)
deriving DecidableEq, Repr

/-- Rectangular pixel extent of a buffer Result. -/
structure Domain where
  width : ℕ
  height : ℕ
deriving DecidableEq, Repr

/-- Modelled from the spec: the payload of a Result is either a single
broadcastable value or a buffer of elements over a rectangular domain. -/
inductive ResultData where
  | single (v : PixelValue)
  | buffer (domain : Domain) (pixels : List PixelValue)
deriving DecidableEq, Repr

/-- Modelled from the spec: a Result is a payload tagged with a data kind. -/
structure Result where
  kind : DataKind
  data : ResultData
deriving DecidableEq, Repr

/-- Modelled from the spec: per-input metadata declaring the kind the
consuming node requires. -/
structure InputDescriptor where
  type : DataKind
deriving DecidableEq, Repr

/-- Modelled from the spec: the execution context; the only capability this
subsystem queries is whether GPU execution is active. -/
structure Context where
  use_gpu : Bool
deriving DecidableEq, Repr

/-- The six concrete converter classes of COM_conversion_operation.hh, one per
ordered unequal pair of data kinds. -/
inductive ConverterKind where
  | floatToVector
  | floatToColor
  | colorToFloat
  | colorToVector
  | vectorToFloat
  | vectorToColor
deriving DecidableEq, Repr

/-- Source data kind handled by each concrete converter. -/
def converter_source : ConverterKind → DataKind
  | .floatToVector => .Scalar
  | .floatToColor => .Scalar
  | .colorToFloat => .Color4
  | .colorToVector => .Color4
  | .vectorToFloat => .Vector4
  | .vectorToColor => .Vector4

/-- Output data kind produced by each concrete converter. -/
def converter_target : ConverterKind → DataKind
  | .floatToVector => .Vector4
  | .floatToColor => .Color4
  | .colorToFloat => .Scalar
  | .colorToVector => .Vector4
  | .vectorToFloat => .Scalar
  | .vectorToColor => .Color4

/-- A conversion operation as constructed by the factory: a concrete converter
bound to the execution context. -/
structure ConstructedOperation where
  converter : ConverterKind
  context : Context
deriving DecidableEq, Repr

/-- Modelled from the spec: `ConversionOperation::construct_if_needed`
(declared in COM_conversion_operation.hh; body not in the fragment).  Compares
the kind of the input result with the kind required by the descriptor; when
they are equal no conversion is needed and a null pointer is returned,
otherwise the concrete converter for the ordered pair is constructed, bound to
the context. -/
def construct_if_needed (context : Context) (input_result : Result)
    (input_descriptor : InputDescriptor) : Option ConstructedOperation :=
  let result_type := input_result.kind
  let expected_type := input_descriptor.type
  if result_type = expected_type then
    none
  else
    match result_type, expected_type with
    | .Scalar, .Vector4 => some ⟨.floatToVector, context⟩
    | .Scalar, .Color4 => some ⟨.floatToColor, context⟩
    | .Color4, .Scalar => some ⟨.colorToFloat, context⟩
    | .Color4, .Vector4 => some ⟨.colorToVector, context⟩
    | .Vector4, .Scalar => some ⟨.vectorToFloat, context⟩
    | .Vector4, .Color4 => some ⟨.vectorToColor, context⟩
    | _, _ => none

/-- Modelled from the spec: the per-element transform computed by
`execute_single` of each concrete converter (rule table of the spec; matches
the class documentation comments in COM_conversion_operation.hh).  Returns
`none` on an element whose shape does not match the converter's source kind;
such a call is not representable in the typed pipeline. -/
def convert_single_value : ConverterKind → PixelValue → Option PixelValue
  | .floatToVector, .scalar v => some (.float4 v v v 1)
  | .floatToColor, .scalar v => some (.float4 v v v 1)
  | .colorToFloat, .float4 r g b _ => some (.scalar ((r + g + b) / 3))
  | .colorToVector, .float4 r g b a => some (.float4 r g b a)
  | .vectorToFloat, .float4 x y z _ => some (.scalar ((x + y + z) / 3))
  | .vectorToColor, .float4 x y z _ => some (.float4 x y z 1)
  | _, _ => none

/-- Modelled from the spec: the per-element transform applied by
`execute_cpu` of each concrete converter to every pixel of the input buffer
(rule table of the spec). -/
def convert_cpu_value : ConverterKind → PixelValue → Option PixelValue
  | .floatToVector, .scalar v => some (.float4 v v v 1)
  | .floatToColor, .scalar v => some (.float4 v v v 1)
  | .colorToFloat, .float4 r g b _ => some (.scalar ((r + g + b) / 3))
  | .colorToVector, .float4 r g b a => some (.float4 r g b a)
  | .vectorToFloat, .float4 x y z _ => some (.scalar ((x + y + z) / 3))
  | .vectorToColor, .float4 x y z _ => some (.float4 x y z 1)
  | _, _ => none

/-- Modelled from the spec: the per-element transform performed per pixel by
the GPU shader returned by `get_conversion_shader` of each concrete converter;
the spec states it performs the same transform as the rule table. -/
def conversion_shader_value : ConverterKind → PixelValue → Option PixelValue
  | .floatToVector, .scalar v => some (.float4 v v v 1)
  | .floatToColor, .scalar v => some (.float4 v v v 1)
  | .colorToFloat, .float4 r g b _ => some (.scalar ((r + g + b) / 3))
  | .colorToVector, .float4 r g b a => some (.float4 r g b a)
  | .vectorToFloat, .float4 x y z _ => some (.scalar ((x + y + z) / 3))
  | .vectorToColor, .float4 x y z _ => some (.float4 x y z 1)
  | _, _ => none

/-- Whether a Result is a single broadcastable value. -/
def is_single_value (r : Result) : Bool :=
  match r.data with
  | .single _ => true
  | .buffer _ _ => false

/-- Modelled from the spec: the single-value path.  Converts the one value and
produces an output Result that is itself a single broadcastable value, tagged
with the converter's output kind. -/
def execute_single (op : ConverterKind) (input : Result) : Option Result :=
  match input.data with
  | .single v =>
      (convert_single_value op v).map (fun w => ⟨converter_target op, .single w⟩)
  | .buffer _ _ => none

/-- The per-pixel loop over a buffer: applies an element transform to every
stored element, failing if the transform fails on any element (which cannot
happen on well-typed input). -/
def map_elements (f : PixelValue → Option PixelValue) :
    List PixelValue → Option (List PixelValue)
  | [] => some []
  | p :: ps =>
    match f p, map_elements f ps with
    | some w, some ws => some (w :: ws)
    | _, _ => none

/-- Modelled from the spec: the CPU path.  Applies the per-element transform
to every pixel of the input buffer, producing an output buffer over the same
domain, tagged with the converter's output kind. -/
def execute_cpu (op : ConverterKind) (input : Result) : Option Result :=
  match input.data with
  | .buffer dom pixels =>
      (map_elements (convert_cpu_value op) pixels).map
        (fun ws => ⟨converter_target op, .buffer dom ws⟩)
  | .single _ => none

/-- Modelled from the spec: the GPU path.  Dispatches the conversion shader
across the full domain of the input buffer, producing an output buffer over
the same domain, tagged with the converter's output kind. -/
def dispatch_shader (op : ConverterKind) (input : Result) : Option Result :=
  match input.data with
  | .buffer dom pixels =>
      (map_elements (conversion_shader_value op) pixels).map
        (fun ws => ⟨converter_target op, .buffer dom ws⟩)
  | .single _ => none

/-- Modelled from the spec: `ConversionOperation::execute` (declared in
COM_conversion_operation.hh; body not in the fragment).  If the input result
is a single value, `execute_single` is called.  Otherwise, the shader provided
by `get_conversion_shader` is dispatched for GPU contexts or `execute_cpu` is
called for CPU contexts. -/
def execute (context : Context) (op : ConverterKind) (input : Result) :
    Option Result :=
  if is_single_value input then
    execute_single op input
  else if context.use_gpu then
    dispatch_shader op input
  else
    execute_cpu op input

/-- One evaluation step of a conversion node as a state transform: the input
result slot (a const reference in the source, the operation never mutates it)
paired with the freshly produced output result. -/
def execute_step (context : Context) (op : ConverterKind) (input : Result) :
    Result × Option Result :=
  (input, execute context op input)

/-- Domain of a buffer Result, if it is one. -/
def domain_of (r : Result) : Option Domain :=
  match r.data with
  | .single _ => none
  | .buffer d _ => some d

/-- Number of stored elements of a Result. -/
def pixel_count (r : Result) : ℕ :=
  match r.data with
  | .single _ => 1
  | .buffer _ ps => ps.length

/-- C1: for every supported conversion pair and every input element, the
single-value path, the CPU path and the GPU shader path compute the same pure
per-element function: given the same input value, all three produce
numerically identical converted output. -/
theorem conversion_paths_agree (op : ConverterKind) (v : PixelValue) :
    convert_single_value op v = convert_cpu_value op v ∧
    convert_cpu_value op v = conversion_shader_value op v := by
  cases op <;> cases v <;>
    simp [convert_single_value, convert_cpu_value, conversion_shader_value]

/-- C4: for every scalar value `s`, Scalar→Vector4 produces `(s, s, s, 1)` and
Scalar→Color4 produces `(s, s, s, 1)`, on all three execution paths. -/
theorem scalar_broadcast_rule (s : ℚ) :
    convert_single_value .floatToVector (.scalar s) = some (.float4 s s s 1) ∧
    convert_cpu_value .floatToVector (.scalar s) = some (.float4 s s s 1) ∧
    conversion_shader_value .floatToVector (.scalar s) = some (.float4 s s s 1) ∧
    convert_single_value .floatToColor (.scalar s) = some (.float4 s s s 1) ∧
    convert_cpu_value .floatToColor (.scalar s) = some (.float4 s s s 1) ∧
    conversion_shader_value .floatToColor (.scalar s) = some (.float4 s s s 1) := by
  refine ⟨rfl, rfl, rfl, rfl, rfl, rfl⟩

/-- C5: for every 4-component input, Color4→Scalar and Vector4→Scalar both
output the arithmetic mean of the first three components; the fourth
component (alpha for color) does not influence the result; in particular
Color4(0.2, 0.4, 0.6, 0.9) converts to Scalar(0.4). -/
theorem four_component_to_scalar_mean (r g b a x y z w a' : ℚ) :
    convert_cpu_value .colorToFloat (.float4 r g b a)
      = some (.scalar ((r + g + b) / 3)) ∧
    convert_cpu_value .vectorToFloat (.float4 x y z w)
      = some (.scalar ((x + y + z) / 3)) ∧
    convert_cpu_value .colorToFloat (.float4 r g b a')
      = convert_cpu_value .colorToFloat (.float4 r g b a) ∧
    convert_cpu_value .vectorToFloat (.float4 x y z a')
      = convert_cpu_value .vectorToFloat (.float4 x y z w) ∧
    convert_cpu_value .colorToFloat
        (.float4 (2/10) (4/10) (6/10) (9/10)) = some (.scalar (4/10)) := by
  refine ⟨rfl, rfl, rfl, rfl, by norm_num [convert_cpu_value]⟩

/-- C6: Color4→Vector4 is the identity on the element value: the output's
four components are exactly the input's four channels, on every path. -/
theorem color_to_vector_identity (r g b a : ℚ) :
    convert_single_value .colorToVector (.float4 r g b a)
      = some (.float4 r g b a) ∧
    convert_cpu_value .colorToVector (.float4 r g b a)
      = some (.float4 r g b a) ∧
    conversion_shader_value .colorToVector (.float4 r g b a)
      = some (.float4 r g b a) := by
  refine ⟨rfl, rfl, rfl⟩

/-- C7: for every 4-component vector `(x, y, z, w)`, Vector4→Color4 outputs
the color `(x, y, z, 1)`: the first three components are copied, the fourth
is discarded (the output does not depend on it) and alpha is set to 1; in
particular Vector4(1,2,3,4) converts to Color4(1,2,3,1). -/
theorem vector_to_color_rule (x y z w w' : ℚ) :
    convert_cpu_value .vectorToColor (.float4 x y z w)
      = some (.float4 x y z 1) ∧
    convert_cpu_value .vectorToColor (.float4 x y z w')
      = convert_cpu_value .vectorToColor (.float4 x y z w) ∧
    convert_cpu_value .vectorToColor (.float4 1 2 3 4)
      = some (.float4 1 2 3 1) := by
  refine ⟨rfl, rfl, rfl⟩

/-- C8: round trip: converting Scalar→Vector4 and then Vector4→Scalar (the
mean of the first three components) yields the original scalar, since
mean(s,s,s)=s. -/
theorem scalar_vector_round_trip (s : ℚ) :
    (convert_single_value .floatToVector (.scalar s)).bind
      (convert_single_value .vectorToFloat) = some (.scalar s) := by
  simp [convert_single_value]
  ring

/-- Success of the per-pixel loop preserves the number of elements. -/
lemma map_elements_length (f : PixelValue → Option PixelValue) :
    ∀ (ps ws : List PixelValue),
      map_elements f ps = some ws → ws.length = ps.length := by
  intro ps
  induction ps with
  | nil =>
      intro ws h
      simp [map_elements] at h
      simp [← h]
  | cons p ps ih =>
      intro ws h
      cases hf : f p with
      | none => simp [map_elements, hf] at h
      | some w =>
          cases hm : map_elements f ps with
          | none => simp [map_elements, hf, hm] at h
          | some ws2 =>
              simp [map_elements, hf, hm] at h
              simp [← h, ih ws2 hm]

/-- C2: `construct_if_needed` returns null exactly when the input result's
kind equals the descriptor's required kind; otherwise it returns a non-null
operation whose converter bridges exactly the ordered pair (input kind,
required kind), covering every ordered unequal pair of the three kinds. -/
theorem construct_if_needed_correct (context : Context) (input_result : Result)
    (d : InputDescriptor) :
    (construct_if_needed context input_result d = none ↔
      input_result.kind = d.type) ∧
    (input_result.kind ≠ d.type →
      ∃ o, construct_if_needed context input_result d = some o ∧
        converter_source o.converter = input_result.kind ∧
        converter_target o.converter = d.type) := by
  obtain ⟨k, dat⟩ := input_result
  obtain ⟨dt⟩ := d
  cases k <;> cases dt <;>
    simp [construct_if_needed, converter_source, converter_target]

/-- C2 witness: at the concrete unequal pair (Scalar, Vector4) the factory
returns the Scalar→Vector4 converter. -/
theorem construct_if_needed_correct_witness :
    (construct_if_needed ⟨true⟩ ⟨.Scalar, .single (.scalar 0)⟩ ⟨.Vector4⟩
        = none ↔ (Result.mk .Scalar (.single (.scalar 0))).kind
          = (InputDescriptor.mk .Vector4).type) ∧
    ((Result.mk .Scalar (.single (.scalar 0))).kind
        ≠ (InputDescriptor.mk .Vector4).type →
      ∃ o, construct_if_needed ⟨true⟩ ⟨.Scalar, .single (.scalar 0)⟩
            ⟨.Vector4⟩ = some o ∧
        converter_source o.converter
          = (Result.mk .Scalar (.single (.scalar 0))).kind ∧
        converter_target o.converter = (InputDescriptor.mk .Vector4).type) :=
  construct_if_needed_correct ⟨true⟩ ⟨.Scalar, .single (.scalar 0)⟩ ⟨.Vector4⟩

/-- C3: `execute` selects its strategy in a fixed order: a single-value input
always takes the single-value path (and the output is marked single),
regardless of the context; otherwise a GPU-capable context dispatches the
conversion shader; otherwise the CPU path runs. -/
theorem execute_dispatch_order (context : Context) (op : ConverterKind)
    (input : Result) :
    (is_single_value input = true →
      execute context op input = execute_single op input ∧
      ∀ out, execute context op input = some out →
        is_single_value out = true) ∧
    (is_single_value input = false → context.use_gpu = true →
      execute context op input = dispatch_shader op input) ∧
    (is_single_value input = false → context.use_gpu = false →
      execute context op input = execute_cpu op input) := by
  obtain ⟨k, dat⟩ := input
  cases dat with
  | single v =>
      refine ⟨fun _ => ⟨by simp [execute, is_single_value], ?_⟩,
        fun h => by simp [is_single_value] at h,
        fun h => by simp [is_single_value] at h⟩
      intro out hout
      simp [execute, is_single_value, execute_single] at hout
      cases hc : convert_single_value op v with
      | none => simp [hc] at hout
      | some w =>
          simp [hc] at hout
          simp [← hout, is_single_value]
  | buffer dom ps =>
      refine ⟨fun h => by simp [is_single_value] at h, fun _ hg => ?_,
        fun _ hg => ?_⟩ <;>
        simp [execute, is_single_value, hg]

/-- C3 witness: a concrete single-value input in a GPU-capable context takes
the single-value path and produces a single-value output. -/
theorem execute_dispatch_order_witness :
    (is_single_value ⟨.Scalar, .single (.scalar 2)⟩ = true →
      execute ⟨true⟩ .floatToVector ⟨.Scalar, .single (.scalar 2)⟩
          = execute_single .floatToVector ⟨.Scalar, .single (.scalar 2)⟩ ∧
      ∀ out, execute ⟨true⟩ .floatToVector ⟨.Scalar, .single (.scalar 2)⟩
          = some out → is_single_value out = true) ∧
    (is_single_value ⟨.Scalar, .single (.scalar 2)⟩ = false →
      (Context.mk true).use_gpu = true →
      execute ⟨true⟩ .floatToVector ⟨.Scalar, .single (.scalar 2)⟩
        = dispatch_shader .floatToVector ⟨.Scalar, .single (.scalar 2)⟩) ∧
    (is_single_value ⟨.Scalar, .single (.scalar 2)⟩ = false →
      (Context.mk true).use_gpu = false →
      execute ⟨true⟩ .floatToVector ⟨.Scalar, .single (.scalar 2)⟩
        = execute_cpu .floatToVector ⟨.Scalar, .single (.scalar 2)⟩) :=
  execute_dispatch_order ⟨true⟩ .floatToVector ⟨.Scalar, .single (.scalar 2)⟩

/-- C9: a successful conversion execution leaves the input result unchanged in
its slot and produces a distinct output result tagged with the converter's
output kind, over the input's domain with the same element count and the same
single-value status. -/
theorem execute_frame_effect (context : Context) (op : ConverterKind)
    (input out : Result) (h : execute context op input = some out) :
    (execute_step context op input).1 = input ∧
    out.kind = converter_target op ∧
    domain_of out = domain_of input ∧
    pixel_count out = pixel_count input ∧
    is_single_value out = is_single_value input := by
  refine ⟨rfl, ?_⟩
  obtain ⟨k, dat⟩ := input
  cases dat with
  | single v =>
      simp [execute, is_single_value, execute_single] at h
      cases hc : convert_single_value op v with
      | none => simp [hc] at h
      | some w =>
          simp [hc] at h
          simp [← h, domain_of, pixel_count, is_single_value]
  | buffer dom ps =>
      by_cases hg : context.use_gpu = true
      · simp [execute, is_single_value, hg, dispatch_shader] at h
        cases hm : map_elements (conversion_shader_value op) ps with
        | none => simp [hm] at h
        | some ws =>
            simp [hm] at h
            simp [← h, domain_of, pixel_count, is_single_value,
              map_elements_length _ ps ws hm]
      · simp [execute, is_single_value, hg, execute_cpu] at h
        cases hm : map_elements (convert_cpu_value op) ps with
        | none => simp [hm] at h
        | some ws =>
            simp [hm] at h
            simp [← h, domain_of, pixel_count, is_single_value,
              map_elements_length _ ps ws hm]

/-- C9 witness: a concrete CPU execution of Scalar→Vector4 over a 2×1 buffer
leaves the input in place and produces a Vector4 buffer of the same shape. -/
theorem execute_frame_effect_witness :
    execute ⟨false⟩ .floatToVector
        ⟨.Scalar, .buffer ⟨2, 1⟩ [.scalar 2, .scalar 3]⟩
      = some ⟨.Vector4, .buffer ⟨2, 1⟩
          [.float4 2 2 2 1, .float4 3 3 3 1]⟩ ∧
    (execute_step ⟨false⟩ .floatToVector
        ⟨.Scalar, .buffer ⟨2, 1⟩ [.scalar 2, .scalar 3]⟩).1
      = ⟨.Scalar, .buffer ⟨2, 1⟩ [.scalar 2, .scalar 3]⟩ ∧
    (Result.mk .Vector4 (.buffer ⟨2, 1⟩
        [.float4 2 2 2 1, .float4 3 3 3 1])).kind
      = converter_target .floatToVector ∧
    domain_of ⟨.Vector4, .buffer ⟨2, 1⟩ [.float4 2 2 2 1, .float4 3 3 3 1]⟩
      = domain_of ⟨.Scalar, .buffer ⟨2, 1⟩ [.scalar 2, .scalar 3]⟩ ∧
    pixel_count ⟨.Vector4, .buffer ⟨2, 1⟩ [.float4 2 2 2 1, .float4 3 3 3 1]⟩
      = pixel_count ⟨.Scalar, .buffer ⟨2, 1⟩ [.scalar 2, .scalar 3]⟩ ∧
    is_single_value
        ⟨.Vector4, .buffer ⟨2, 1⟩ [.float4 2 2 2 1, .float4 3 3 3 1]⟩
      = is_single_value ⟨.Scalar, .buffer ⟨2, 1⟩ [.scalar 2, .scalar 3]⟩ :=
  ⟨by decide, execute_frame_effect ⟨false⟩ .floatToVector
    ⟨.Scalar, .buffer ⟨2, 1⟩ [.scalar 2, .scalar 3]⟩
    ⟨.Vector4, .buffer ⟨2, 1⟩ [.float4 2 2 2 1, .float4 3 3 3 1]⟩
    (by decide)⟩

/-- C10: the factory's decision is determined solely by the pair (input kind,
required kind): two calls agreeing on those two kinds either both return null
or both return the same concrete converter, whatever the pixel data, domain,
single-value flag and context; the context argument only parameterizes the
constructed operation. -/
theorem construct_decision_kind_determined (c1 c2 : Context) (r1 r2 : Result)
    (d1 d2 : InputDescriptor) (hk : r1.kind = r2.kind)
    (hd : d1.type = d2.type) :
    ((construct_if_needed c1 r1 d1).map ConstructedOperation.converter
      = (construct_if_needed c2 r2 d2).map ConstructedOperation.converter) ∧
    (construct_if_needed c1 r1 d1 = none ↔
      construct_if_needed c2 r2 d2 = none) ∧
    (∀ o, construct_if_needed c1 r1 d1 = some o → o.context = c1) := by
  obtain ⟨k1, dat1⟩ := r1
  obtain ⟨k2, dat2⟩ := r2
  obtain ⟨t1⟩ := d1
  obtain ⟨t2⟩ := d2
  simp at hk hd
  subst hk
  subst hd
  refine ⟨?_, ?_, ?_⟩
  · cases k1 <;> cases t1 <;> simp [construct_if_needed]
  · cases k1 <;> cases t1 <;> simp [construct_if_needed]
  · intro o ho
    cases k1 <;> cases t1 <;> simp [construct_if_needed] at ho <;>
      simp [← ho]

/-- C10 witness: two calls with the kind pair (Color4, Scalar) but different
contexts, pixel data and single-value flags make the same decision, and the
constructed operation is bound to the first call's context. -/
theorem construct_decision_kind_determined_witness :
    ((construct_if_needed ⟨true⟩ ⟨.Color4, .single (.float4 1 2 3 4)⟩
          ⟨.Scalar⟩).map ConstructedOperation.converter
      = (construct_if_needed ⟨false⟩
          ⟨.Color4, .buffer ⟨3, 3⟩ [.float4 0 0 0 0]⟩
          ⟨.Scalar⟩).map ConstructedOperation.converter) ∧
    (construct_if_needed ⟨true⟩ ⟨.Color4, .single (.float4 1 2 3 4)⟩
        ⟨.Scalar⟩ = none ↔
      construct_if_needed ⟨false⟩
        ⟨.Color4, .buffer ⟨3, 3⟩ [.float4 0 0 0 0]⟩ ⟨.Scalar⟩ = none) ∧
    (∀ o, construct_if_needed ⟨true⟩ ⟨.Color4, .single (.float4 1 2 3 4)⟩
        ⟨.Scalar⟩ = some o → o.context = ⟨true⟩) :=
  construct_decision_kind_determined ⟨true⟩ ⟨false⟩
    ⟨.Color4, .single (.float4 1 2 3 4)⟩
    ⟨.Color4, .buffer ⟨3, 3⟩ [.float4 0 0 0 0]⟩
    ⟨.Scalar⟩ ⟨.Scalar⟩ rfl rfl

end Compositor
